import Mathlib

/-!
Verification development for the `toolbox` package (a tool-calling helper for
LLM chat APIs).  The Python sources `toolbox/toolbox.py`, `toolbox/schema.py`
and `toolbox/messages.py` are shallowly embedded below: Python dicts become
insertion-ordered association lists, Python exceptions become `Except String`,
and the external `json.loads` capability is modelled by a small executable
JSON parser covering the JSON fragment the package exchanges (objects, arrays,
strings, integers, booleans, null; floats are outside the modelled fragment).
-/

/-- Python runtime values as they flow through the toolbox: the results of
`json.loads`, function return values, and enum literals. -/
inductive PyVal where
  | none
  | bool (b : Bool)
  | int (n : Int)
  | str (s : String)
  | list (xs : List PyVal)
  | dict (kvs : List (String × PyVal))

/-- Double-quote character, by code point. -/
def quoteChar : Char := Char.ofNat 34

/-- Backslash character, by code point. -/
def backslashChar : Char := Char.ofNat 92

/-- Opening-brace character, by code point. -/
def lbraceChar : Char := Char.ofNat 123

/-- Closing-brace character, by code point. -/
def rbraceChar : Char := Char.ofNat 125

/-- Apostrophe character, by code point. -/
def aposChar : Char := Char.ofNat 39

mutual

/-- Python `repr` on the modelled values (used by `str` on containers). -/
def pyRepr : PyVal → String
  | PyVal.none => "None"
  | PyVal.bool true => "True"
  | PyVal.bool false => "False"
  | PyVal.int n => toString n
  | PyVal.str s => String.mk (aposChar :: s.data) ++ String.mk [aposChar]
  | PyVal.list xs => "[" ++ String.intercalate ", " (pyReprList xs) ++ "]"
  | PyVal.dict kvs => String.mk [lbraceChar] ++ String.intercalate ", " (pyReprDict kvs) ++ String.mk [rbraceChar]

/-- Helper for `pyRepr` on lists. -/
def pyReprList : List PyVal → List String
  | [] => []
  | v :: vs => pyRepr v :: pyReprList vs

/-- Helper for `pyRepr` on dicts. -/
def pyReprDict : List (String × PyVal) → List String
  | [] => []
  | (k, v) :: kvs =>
      (String.mk (aposChar :: k.data) ++ String.mk [aposChar] ++ ": " ++ pyRepr v) :: pyReprDict kvs

end

/-- Python `str` on the modelled values: the string itself for a `str`,
`repr` otherwise. -/
def pyStr : PyVal → String
  | PyVal.str s => s
  | v => pyRepr v

/-- Python dict assignment `d[k] = v` on an insertion-ordered association
list: replace in place when the key exists, append otherwise. -/
def dictSet {α : Type} : List (String × α) → String → α → List (String × α)
  | [], k, v => [(k, v)]
  | (k1, v1) :: rest, k, v =>
      if k1 = k then (k1, v) :: rest else (k1, v1) :: dictSet rest k v

/-- Python dict lookup `d.get(k)` on an association list. -/
def dictGet {α : Type} : List (String × α) → String → Option α
  | [], _ => Option.none
  | (k1, v1) :: rest, k => if k1 = k then Option.some v1 else dictGet rest k

/-- Whitespace test for the JSON parser. -/
def isJsonWs (c : Char) : Bool :=
  c = ' ' || c = Char.ofNat 10 || c = Char.ofNat 9 || c = Char.ofNat 13

/-- Skip leading whitespace. -/
def skipWs : List Char → List Char
  | [] => []
  | c :: cs => if isJsonWs c then skipWs cs else c :: cs

/-- JSON string escape characters. -/
def escChar (e : Char) : Option Char :=
  if e = quoteChar then Option.some quoteChar
  else if e = backslashChar then Option.some backslashChar
  else if e = '/' then Option.some '/'
  else if e = 'n' then Option.some (Char.ofNat 10)
  else if e = 't' then Option.some (Char.ofNat 9)
  else if e = 'r' then Option.some (Char.ofNat 13)
  else Option.none

/-- Parse the body of a JSON string after the opening quote; returns the
string content and the remaining input. -/
def parseStringBody : List Char → Except String (String × List Char)
  | [] => Except.error "unterminated string"
  | c :: cs =>
    if c = quoteChar then Except.ok ("", cs)
    else if c = backslashChar then
      match cs with
      | [] => Except.error "bad escape"
      | e :: cs2 =>
        match escChar e with
        | Option.some ec =>
            (parseStringBody cs2).map (fun r => (String.mk (ec :: r.1.data), r.2))
        | Option.none => Except.error "bad escape"
    else (parseStringBody cs).map (fun r => (String.mk (c :: r.1.data), r.2))

/-- Parse a run of decimal digits, accumulating into a natural number. -/
def parseDigitsAux : Nat → List Char → Nat × List Char
  | acc, [] => (acc, [])
  | acc, c :: cs =>
      if c.isDigit then parseDigitsAux (acc * 10 + (c.toNat - 48)) cs else (acc, c :: cs)

/-- Match an exact character sequence. -/
def expectChars : List Char → List Char → Except String (List Char)
  | [], cs => Except.ok cs
  | _ :: _, [] => Except.error "bad literal"
  | e :: es, c :: cs => if c = e then expectChars es cs else Except.error "bad literal"

/-- Parse a JSON number (integers only: floats are outside the modelled
fragment of the external `json.loads` capability). -/
def parseNumber (neg : Bool) (cs : List Char) : Except String (PyVal × List Char) :=
  match cs with
  | [] => Except.error "bad number"
  | c :: _ =>
    if c.isDigit then
      let r := parseDigitsAux 0 cs
      match r.2 with
      | d :: _ =>
        if d = '.' || d = 'e' || d = 'E' then Except.error "float literal outside modelled fragment"
        else Except.ok (PyVal.int (if neg then -(r.1 : Int) else (r.1 : Int)), r.2)
      | [] => Except.ok (PyVal.int (if neg then -(r.1 : Int) else (r.1 : Int)), r.2)
    else Except.error "bad number"

mutual

/-- Fueled recursive-descent parser for one JSON value. -/
def parseVal : Nat → List Char → Except String (PyVal × List Char)
  | 0, _ => Except.error "out of fuel"
  | Nat.succ fuel, cs =>
    match skipWs cs with
    | [] => Except.error "unexpected end of input"
    | c :: cs1 =>
      if c = quoteChar then (parseStringBody cs1).map (fun r => (PyVal.str r.1, r.2))
      else if c = lbraceChar then parseMembers fuel true [] cs1
      else if c = '[' then parseElems fuel true [] cs1
      else if c = 't' then (expectChars "rue".data cs1).map (fun rest => (PyVal.bool true, rest))
      else if c = 'f' then (expectChars "alse".data cs1).map (fun rest => (PyVal.bool false, rest))
      else if c = 'n' then (expectChars "ull".data cs1).map (fun rest => (PyVal.none, rest))
      else if c = '-' then parseNumber true cs1
      else parseNumber false (c :: cs1)

/-- Parse the members of a JSON object after the opening brace. -/
def parseMembers : Nat → Bool → List (String × PyVal) → List Char → Except String (PyVal × List Char)
  | 0, _, _, _ => Except.error "out of fuel"
  | Nat.succ fuel, first, acc, cs =>
    match skipWs cs with
    | [] => Except.error "unterminated object"
    | c :: cs1 =>
      if c = rbraceChar && first then Except.ok (PyVal.dict acc, cs1)
      else if c = quoteChar then
        match parseStringBody cs1 with
        | Except.error e => Except.error e
        | Except.ok kr =>
          match skipWs kr.2 with
          | ':' :: cs2 =>
            match parseVal fuel cs2 with
            | Except.error e => Except.error e
            | Except.ok vr =>
              let acc2 := dictSet acc kr.1 vr.1
              match skipWs vr.2 with
              | c2 :: cs3 =>
                if c2 = rbraceChar then Except.ok (PyVal.dict acc2, cs3)
                else if c2 = ',' then parseMembers fuel false acc2 cs3
                else Except.error "expected comma or closing brace"
              | [] => Except.error "unterminated object"
          | _ => Except.error "expected colon"
      else Except.error "expected string key"

/-- Parse the elements of a JSON array after the opening bracket. -/
def parseElems : Nat → Bool → List PyVal → List Char → Except String (PyVal × List Char)
  | 0, _, _, _ => Except.error "out of fuel"
  | Nat.succ fuel, first, acc, cs =>
    match skipWs cs with
    | [] => Except.error "unterminated array"
    | c :: cs1 =>
      if c = ']' && first then Except.ok (PyVal.list acc, cs1)
      else
        match parseVal fuel (c :: cs1) with
        | Except.error e => Except.error e
        | Except.ok vr =>
          let acc2 := acc ++ [vr.1]
          match skipWs vr.2 with
          | c2 :: cs2 =>
            if c2 = ']' then Except.ok (PyVal.list acc2, cs2)
            else if c2 = ',' then parseElems fuel false acc2 cs2
            else Except.error "expected comma or closing bracket"
          | [] => Except.error "unterminated array"

end

/-- Model of the external `json.loads` capability on the modelled JSON
fragment: parse one value and require only trailing whitespace after it. -/
def json_loads (s : String) : Except String PyVal :=
  match parseVal (s.length + 1) s.data with
  | Except.error e => Except.error e
  | Except.ok vr =>
    match skipWs vr.2 with
    | [] => Except.ok vr.1
    | _ => Except.error "trailing data"

/-- `json.loads` followed by the keyword-unpacking step `func(**fn_args)`:
a non-object argument payload raises when unpacked, which the dispatcher
catches like any other exception. -/
def json_loads_obj (s : String) : Except String (List (String × PyVal)) :=
  match json_loads s with
  | Except.error e => Except.error e
  | Except.ok (PyVal.dict kvs) => Except.ok kvs
  | Except.ok _ => Except.error "argument after ** must be a mapping"

/-- Python type annotations as they reach `_python_type_to_json_schema_type`
in `toolbox/toolbox.py`: the primitive types of its mapping table,
`Optional`/`Union` (reduced to the first non-`None` member), string forward
references, and anything else. -/
inductive PyType where
  | str
  | int
  | float
  | bool
  | list
  | dict
  | number
  | optional (t : PyType)
  | strAnn (s : String)
  | other
deriving DecidableEq, Repr

/-- Embeds `_python_type_to_json_schema_type` from `toolbox/toolbox.py`:
translate a Python annotation to a JSON-schema type string, defaulting to
"string" for unknown types. -/
def python_type_to_json_schema_type : PyType → String
  | PyType.optional t => python_type_to_json_schema_type t
  | PyType.str => "string"
  | PyType.int => "integer"
  | PyType.float => "number"
  | PyType.bool => "boolean"
  | PyType.list => "array"
  | PyType.dict => "object"
  | PyType.number => "number"
  | PyType.strAnn s =>
      if s = "str" then "string"
      else if s = "int" then "integer"
      else if s = "float" then "number"
      else if s = "bool" then "boolean"
      else if s = "list" then "array"
      else if s = "dict" then "object"
      else "string"
  | PyType.other => "string"

/-- The per-parameter metadata dict `{"type": ..., "description": ...}` that
`Toolbox.parameter` stores in `func._tool_params` (the "enum" key is added
only when a non-empty enum is supplied). -/
structure ParamInfo where
  type : String
  description : Option String
  enum : Option (List PyVal)

/-- A Python function object as the decorators see it: its `__name__`, its
`inspect.signature` (parameter names with optional annotations), its behaviour
when called with keyword arguments (exceptions modelled as `Except.error`),
and the `_tool_params` / `_tool_required` attributes the decorators attach
(`Option.none` models `hasattr` being false). -/
structure PyFunc where
  name : String
  sig : List (String × Option PyType) := []
  call : List (String × PyVal) → Except String PyVal
  tool_params : Option (List (String × ParamInfo)) := Option.none
  tool_required : Option (List String) := Option.none

/-- The `parameters` object of a tool definition built by
`Toolbox.function`: `{"type": "object", "properties": ..., "required": ...}`. -/
structure ToolParameters where
  type : String
  properties : List (String × ParamInfo)
  required : List String

/-- The `function` object of a tool definition built by `Toolbox.function`. -/
structure ToolFunctionSchema where
  name : String
  description : String
  strict : Bool
  parameters : ToolParameters

/-- A tool definition as appended to `Toolbox._tools_schema`. -/
structure ToolDefinition where
  type : String
  function : ToolFunctionSchema

/-- The `Toolbox` state: `_functions` (name → callable) and `_tools_schema`. -/
structure Toolbox where
  functions : List (String × PyFunc) := []
  tools_schema : List ToolDefinition := []

/-- The `tools` property of `Toolbox`. -/
def Toolbox.tools (self : Toolbox) : List ToolDefinition :=
  self.tools_schema

/-- The type-inference step of `Toolbox.parameter`: use the explicit `type`
argument when given, otherwise look the parameter up in the function
signature, raising `ValueError` when it is missing or unannotated. -/
def infer_param_type (name : String) (type : Option String) (func : PyFunc) :
    Except String String :=
  match type with
  | Option.some t => Except.ok t
  | Option.none =>
    match dictGet func.sig name with
    | Option.none =>
        Except.error ("Parameter \x27" ++ name ++ "\x27 not found in function \x27"
          ++ func.name ++ "\x27 signature")
    | Option.some Option.none =>
        Except.error ("Parameter \x27" ++ name ++ "\x27 in function \x27" ++ func.name
          ++ "\x27 has no type annotation and no \x27type\x27 argument was provided. "
          ++ "Either provide a type annotation or specify the \x27type\x27 argument in the decorator.")
    | Option.some (Option.some ann) => Except.ok (python_type_to_json_schema_type ann)

/-- Embeds the decorator returned by `Toolbox.parameter` applied to a
function object: attach `{"type", "description"}` (plus "enum" when a
non-empty enum is given) under the parameter name in `_tool_params`, and
append the name to `_tool_required` when `required` is true.  `ValueError`
from type inference is the `Except.error` case.  Note the decorator never
touches the `Toolbox` instance itself. -/
def Toolbox.parameter (name : String) (type : Option String) (description : Option String)
    (required : Bool) (enum : Option (List PyVal)) (func : PyFunc) : Except String PyFunc :=
  match infer_param_type name type func with
  | Except.error e => Except.error e
  | Except.ok param_type =>
    let tool_params := func.tool_params.getD []
    let pinfo : ParamInfo := { type := param_type, description := description, enum := Option.none }
    let pinfo :=
      match enum with
      | Option.some (e :: es) => { pinfo with enum := Option.some (e :: es) }
      | _ => pinfo
    let tool_required := func.tool_required.getD []
    let tool_required := if required then tool_required ++ [name] else tool_required
    Except.ok { func with
      tool_params := Option.some (dictSet tool_params name pinfo),
      tool_required := Option.some tool_required }

/-- The tool definition dict constructed inside `Toolbox.function` from the
function object's accumulated `_tool_params` / `_tool_required` attributes. -/
def tool_definition_of (description : String) (func : PyFunc) : ToolDefinition :=
  { type := "function",
    function := {
      name := func.name,
      description := description,
      strict := true,
      parameters := {
        type := "object",
        properties := func.tool_params.getD [],
        required := func.tool_required.getD [] } } }

/-- Embeds the decorator returned by `Toolbox.function` applied to a function
object: append the tool definition to `_tools_schema`, store the callable in
`_functions`, and return a `functools.wraps` wrapper (which copies the
function's name and attribute dict and delegates the call, hence is modelled
by the function object itself). -/
def Toolbox.function (self : Toolbox) (description : String) (func : PyFunc) :
    Toolbox × PyFunc :=
  let func_name := func.name
  let tool_definition := tool_definition_of description func
  ({ self with
      tools_schema := self.tools_schema ++ [tool_definition],
      functions := dictSet self.functions func_name func },
   func)

/-- The `function` payload of an OpenAI tool call. -/
structure ToolCallFunction where
  name : String
  arguments : String
deriving DecidableEq, Repr

/-- An OpenAI tool-call record: correlation id, type discriminator and
function payload. -/
structure ToolCall where
  id : String
  type : String
  function : ToolCallFunction
deriving DecidableEq, Repr

/-- One entry of the list returned by `Toolbox.execute`: the leading
assistant record echoing the tool calls, or a tool-result record
`{"tool_call_id": ..., "role": "tool", "name": ..., "content": ...}`. -/
inductive ExecEntry where
  | assistantMsg (tool_calls : List ToolCall)
  | toolMsg (tool_call_id : String) (name : String) (content : String)
deriving DecidableEq, Repr

/-- Whether an entry of `Toolbox.execute`'s result is a tool-result record. -/
def ExecEntry.isToolMsg : ExecEntry → Bool
  | ExecEntry.assistantMsg _ => false
  | ExecEntry.toolMsg _ _ _ => true

/-- The body of `Toolbox.execute`'s loop for one tool call: `None` models the
`continue` taken when the function name is not registered (after printing an
error); otherwise one tool-result record is produced, from the caught
exception (JSON parse failure, keyword-unpacking failure or an exception
raised by the callable) or from the successful return value. -/
def Toolbox.executeCall (self : Toolbox) (tool_call : ToolCall) : Option ExecEntry :=
  let fn_name := tool_call.function.name
  let fn_args_str := tool_call.function.arguments
  match dictGet self.functions fn_name with
  | Option.none => Option.none
  | Option.some function_to_call =>
    match (json_loads_obj fn_args_str).bind (fun fn_args => function_to_call.call fn_args) with
    | Except.ok output =>
        Option.some (ExecEntry.toolMsg tool_call.id fn_name (pyStr output))
    | Except.error e =>
        Option.some (ExecEntry.toolMsg tool_call.id fn_name
          ("Error executing " ++ fn_name ++ ": " ++ e))

/-- One iteration of `Toolbox.execute`'s loop: append the produced
tool-result record, if any, to the results accumulated so far. -/
def Toolbox.executeStep (self : Toolbox) (acc : List ExecEntry) (tool_call : ToolCall) :
    List ExecEntry :=
  match self.executeCall tool_call with
  | Option.some entry => acc ++ [entry]
  | Option.none => acc

/-- Embeds `Toolbox.execute`: start from the assistant record echoing the
tool calls, return it alone for an empty batch, and otherwise loop over the
calls appending at most one tool-result record each. -/
def Toolbox.execute (self : Toolbox) (tool_calls : List ToolCall) : List ExecEntry :=
  let results : List ExecEntry := [ExecEntry.assistantMsg tool_calls]
  if tool_calls.isEmpty then results
  else tool_calls.foldl self.executeStep results

namespace Schema

/-- Embeds the `Parameter` dataclass of `toolbox/schema.py`. -/
structure Parameter where
  name : String
  type : String
  description : Option String := Option.none
  required : Bool := true
  enum : Option (List PyVal) := Option.none

/-- Embeds the `Function` dataclass of `toolbox/schema.py` (the `callable`
field, unused by `build_tools_schema`, is carried along). -/
structure Function where
  name : String := ""
  description : String := ""
  callable : Option (List (String × PyVal) → Except String PyVal) := Option.none
  parameters : List Parameter := []

/-- Embeds the `ParameterSchema` TypedDict (`total=False`): `Option.none`
models an absent key. -/
structure ParameterSchema where
  type : String
  description : Option String := Option.none
  enum : Option (List PyVal) := Option.none

/-- Embeds the `ParametersSchema` TypedDict. -/
structure ParametersSchema where
  type : String
  properties : List (String × ParameterSchema)
  required : List String

/-- Embeds the `FunctionSchema` TypedDict. -/
structure FunctionSchema where
  name : String
  description : String
  strict : Bool
  parameters : ParametersSchema

/-- Embeds the `ToolDefinition` TypedDict of `toolbox/schema.py`. -/
structure ToolDefinition where
  type : String
  function : FunctionSchema

/-- The `param_dict` built for one `Parameter` inside `build_tools_schema`:
the "description" and "enum" keys are included only when truthy (a non-empty
string, a non-empty list). -/
def param_schema_of (param : Parameter) : ParameterSchema :=
  let param_dict : ParameterSchema := { type := param.type }
  let param_dict :=
    match param.description with
    | Option.some d => if d = "" then param_dict else { param_dict with description := Option.some d }
    | Option.none => param_dict
  let param_dict :=
    match param.enum with
    | Option.some (e :: es) => { param_dict with enum := Option.some (e :: es) }
    | _ => param_dict
  param_dict

/-- The inner loop of `build_tools_schema` over a function's parameters:
build the `properties` dict and collect `required` names in insertion
order. -/
def build_props (params : List Parameter) : List (String × ParameterSchema) × List String :=
  params.foldl
    (fun acc param =>
      (dictSet acc.1 param.name (param_schema_of param),
       if param.required then acc.2 ++ [param.name] else acc.2))
    ([], [])

/-- The tool definition emitted by `build_tools_schema` for one eligible
`Function`. -/
def tool_definition_for (func_data : Function) : ToolDefinition :=
  let props := build_props func_data.parameters
  { type := "function",
    function := {
      name := func_data.name,
      description := func_data.description,
      strict := true,
      parameters := { type := "object", properties := props.1, required := props.2 } } }

/-- One iteration of `build_tools_schema`'s outer loop: skip a `Function`
whose `name` or `description` is empty (Python falsy), otherwise append its
tool definition. -/
def buildStep (schema : List ToolDefinition) (func_data : Function) : List ToolDefinition :=
  if func_data.name = "" ∨ func_data.description = "" then schema
  else schema ++ [tool_definition_for func_data]

/-- Embeds `build_tools_schema` from `toolbox/schema.py`. -/
def build_tools_schema (functions : List Function) : List ToolDefinition :=
  functions.foldl buildStep []

end Schema

namespace Messages

/-- Embeds the `SuccessResult` dataclass of `toolbox/messages.py`. -/
structure SuccessResult where
  tool_call : ToolCall
  name : String
  output : PyVal

/-- Embeds the `ErrorResult` dataclass of `toolbox/messages.py` (the carried
exception is modelled by its message, which is all `serialize_results`
uses of it). -/
structure ErrorResult where
  tool_call : ToolCall
  name : String
  error : String

/-- Embeds `Result = Union[SuccessResult, ErrorResult]`.  The union is closed,
so the serializer's `TypeError` branch for unknown result types is
unreachable in the model. -/
inductive Result where
  | success (r : SuccessResult)
  | error (r : ErrorResult)

/-- The originating tool call of a `Result`. -/
def Result.tool_call : Result → ToolCall
  | Result.success r => r.tool_call
  | Result.error r => r.tool_call

/-- The resolved function name of a `Result`. -/
def Result.name : Result → String
  | Result.success r => r.name
  | Result.error r => r.name

/-- A tool-role message produced by `serialize_results`. -/
structure ToolMessage where
  tool_call_id : String
  role : String
  name : String
  content : String
deriving DecidableEq, Repr

/-- The assistant message produced by `serialize_results`, echoing the
originating tool calls (`model_dump` of a tool call is the call itself in
the model). -/
structure AssistantMessage where
  role : String
  tool_calls : List ToolCall
deriving DecidableEq, Repr

/-- One iteration of `serialize_results`'s loop: compute the `content`
string (`str` of the output for a success, the fixed error template for a
failure), echo the tool call onto the assistant message, and append one
tool-role message. -/
def serializeStep (acc : AssistantMessage × List ToolMessage) (result : Result) :
    AssistantMessage × List ToolMessage :=
  let content :=
    match result with
    | Result.success r => pyStr r.output
    | Result.error r => "Error executing " ++ r.name ++ ": " ++ r.error
  ({ acc.1 with tool_calls := acc.1.tool_calls ++ [result.tool_call] },
   acc.2 ++ [{ tool_call_id := result.tool_call.id, role := "tool",
               name := result.name, content := content }])

/-- Embeds `serialize_results` from `toolbox/messages.py`. -/
def serialize_results (results : List Result) : AssistantMessage × List ToolMessage :=
  results.foldl serializeStep ({ role := "assistant", tool_calls := [] }, [])

end Messages

/-! Concrete inputs used by counterexamples and witnesses. -/

/-- A tool call naming the never-registered function "foo". -/
def fooCall : ToolCall :=
  { id := "1", type := "function", function := { name := "foo", arguments := "\x7b\x7d" } }

/-- A registered function object with no decorator metadata. -/
def fFunc : PyFunc :=
  { name := "f", call := fun _ => Except.ok PyVal.none }

/-- A function object with one annotated parameter "p", as produced by
`def f(p: str)`. -/
def pFunc : PyFunc :=
  { name := "f", sig := [("p", Option.some PyType.str)],
    call := fun _ => Except.ok PyVal.none }

/-- A function object with one unannotated parameter "q", as produced by
`def g(q)`. -/
def qFunc : PyFunc :=
  { name := "g", sig := [("q", Option.none)],
    call := fun _ => Except.ok PyVal.none }

/-- A function object returning the string "hi" on any arguments. -/
def greetFunc : PyFunc :=
  { name := "greet", call := fun _ => Except.ok (PyVal.str "hi") }

/-- A toolbox with `greetFunc` registered. -/
def tbGreet : Toolbox := (Toolbox.function {} "greets" greetFunc).1

/-- A tool call whose type discriminator is "custom", not "function",
naming the registered function "greet" with arguments `{}`. -/
def customCall : ToolCall :=
  { id := "9", type := "custom", function := { name := "greet", arguments := "\x7b\x7d" } }

/-! Helper lemmas. -/

/-- Setting a key in a dict and reading it back yields the new value. -/
theorem dictGet_dictSet {α : Type} (l : List (String × α)) (k : String) (v : α) :
    dictGet (dictSet l k v) k = Option.some v := by
  induction l with
  | nil => simp [dictSet, dictGet]
  | cons kv rest ih =>
    by_cases h : kv.1 = k
    · simp [dictSet, dictGet, h]
    · simp [dictSet, dictGet, h, ih]

/-- The dispatch loop appends, to any accumulator, exactly the tool-result
records that `Toolbox.executeCall` produces, in input order. -/
theorem execute_foldl_spec (tb : Toolbox) (tool_calls : List ToolCall) :
    ∀ init : List ExecEntry,
      tool_calls.foldl tb.executeStep init = init ++ tool_calls.filterMap tb.executeCall := by
  induction tool_calls with
  | nil => intro init; simp
  | cons c cs ih =>
    intro init
    rw [List.foldl_cons, List.filterMap_cons, ih (tb.executeStep init c)]
    cases h : tb.executeCall c with
    | none => simp [Toolbox.executeStep, h]
    | some e => simp [Toolbox.executeStep, h]

/-! Claims. -/

/-- Claim C1 (amended): for every input sequence of tool-call requests,
`Toolbox.execute` returns the assistant record followed by exactly one
tool-result record per request whose function name is registered, in the
order the requests were received; a request naming an unregistered function
contributes no record at all (so the output can be shorter than the input). -/
theorem execute_entries_characterization (tb : Toolbox) (tool_calls : List ToolCall) :
    tb.execute tool_calls
      = ExecEntry.assistantMsg tool_calls :: tool_calls.filterMap tb.executeCall
    ∧ ∀ tool_call : ToolCall,
        (tb.executeCall tool_call = Option.none
          ↔ dictGet tb.functions tool_call.function.name = Option.none) := by
  constructor
  · unfold Toolbox.execute
    cases tool_calls with
    | nil => simp
    | cons c cs =>
      simp only [List.isEmpty_cons, if_neg, Bool.false_eq_true, not_false_eq_true,
        execute_foldl_spec, List.singleton_append]
  · intro tool_call
    unfold Toolbox.executeCall
    cases h : dictGet tb.functions tool_call.function.name with
    | none => simp [h]
    | some f =>
      simp only [h]
      cases (json_loads_obj tool_call.function.arguments).bind
          (fun fn_args => f.call fn_args) with
      | ok output => simp
      | error e => simp

/-- Claim C1 counterexample: a batch of one request naming the unregistered
function "foo" produces zero tool-result records, not one. -/
theorem execute_count_counterexample :
    ((Toolbox.execute {} [fooCall]).filter ExecEntry.isToolMsg).length ≠ [fooCall].length := by
  have h1 : ((Toolbox.execute {} [fooCall]).filter ExecEntry.isToolMsg).length = 0 := rfl
  have h2 : [fooCall].length = 1 := rfl
  rw [h1, h2]
  decide

/-- Claim C2 (amended): dispatching a request naming an unregistered function
does not raise, but it also records no outcome at all: the loop prints an
error and skips the request, so only the assistant record is returned. -/
theorem executeCall_unregistered_skipped (tb : Toolbox) (tool_call : ToolCall)
    (h : dictGet tb.functions tool_call.function.name = Option.none) :
    tb.executeCall tool_call = Option.none ∧
    tb.execute [tool_call] = [ExecEntry.assistantMsg [tool_call]] := by
  have hc : tb.executeCall tool_call = Option.none := by
    unfold Toolbox.executeCall
    simp [h]
  refine ⟨hc, ?_⟩
  unfold Toolbox.execute
  simp [Toolbox.executeStep, hc]

/-- Claim C2 witness: the unregistered call "foo" against an empty toolbox. -/
theorem executeCall_unregistered_skipped_witness :
    Toolbox.executeCall {} fooCall = Option.none ∧
    Toolbox.execute {} [fooCall] = [ExecEntry.assistantMsg [fooCall]] :=
  executeCall_unregistered_skipped {} fooCall rfl

/-- Claim C2 counterexample: a request naming the unregistered function "foo"
yields no Failure outcome (no tool-result record at all), rather than exactly
one Failure referencing that name. -/
theorem unregistered_no_failure_outcome :
    (Toolbox.execute {} [fooCall]).filter ExecEntry.isToolMsg = [] := rfl

/-- Claim C3 (amended): `Toolbox.execute` never inspects a request's `type`
field: a request with any type discriminator is dispatched exactly as a
function-typed request, and no Failure with function name "unknown" is ever
recorded for it. -/
theorem executeCall_ignores_type (tb : Toolbox) (tool_call : ToolCall) (t : String) :
    tb.executeCall { tool_call with type := t } = tb.executeCall tool_call := by
  cases tool_call
  rfl

/-- Claim C3 counterexample: a request with type "custom" naming the
registered function "greet" is executed successfully (one Success record
named "greet"), not recorded as a Failure named "unknown". -/
theorem nonfunction_type_processed_normally :
    Toolbox.execute tbGreet [customCall]
      = [ExecEntry.assistantMsg [customCall], ExecEntry.toolMsg "9" "greet" "hi"] := rfl

/-- Claim C4 (amended): registering the same function name a second time
replaces the stored executable in the registry, but it does not merge the
schema: a second tool definition, built from the second function object's
own description and accumulated metadata, is appended after the first, so
the schema holds two entries for that name. -/
theorem function_reregistration_appends (tb : Toolbox) (d1 d2 : String) (f g : PyFunc)
    (h : g.name = f.name) :
    ((Toolbox.function (Toolbox.function tb d1 f).1 d2 g).1.tools_schema
        = tb.tools_schema ++ [tool_definition_of d1 f, tool_definition_of d2 g])
    ∧ dictGet (Toolbox.function (Toolbox.function tb d1 f).1 d2 g).1.functions f.name
        = Option.some g := by
  constructor
  · unfold Toolbox.function
    simp
  · unfold Toolbox.function
    rw [← h]
    exact dictGet_dictSet _ g.name g

/-- Claim C4 witness: registering `fFunc` under descriptions "first" and
"second". -/
theorem function_reregistration_appends_witness :
    ((Toolbox.function (Toolbox.function {} "first" fFunc).1 "second" fFunc).1.tools_schema
        = ({} : Toolbox).tools_schema
            ++ [tool_definition_of "first" fFunc, tool_definition_of "second" fFunc])
    ∧ dictGet (Toolbox.function (Toolbox.function {} "first" fFunc).1 "second" fFunc).1.functions
        fFunc.name = Option.some fFunc :=
  function_reregistration_appends {} "first" "second" fFunc fFunc rfl

/-- Claim C4 counterexample: registering the function object `fFunc` (name
"f") a second time leaves two schema entries named "f" — with the old and the
new description side by side — rather than a single replaced entry. -/
theorem reregistration_duplicates_schema :
    ((Toolbox.function (Toolbox.function {} "first" fFunc).1 "second" fFunc).1.tools_schema.map
        (fun td => td.function.name) = ["f", "f"])
    ∧ ((Toolbox.function (Toolbox.function {} "first" fFunc).1 "second" fFunc).1.tools_schema.map
        (fun td => td.function.description) = ["first", "second"]) :=
  ⟨rfl, rfl⟩

/-- Claim C5 (amended): the order of the two registration calls does affect
the final schema.  Applying the parameter registration and then the function
registration yields one schema entry carrying the parameter; applying the
function registration first compiles the entry from the still-bare function
object, so its properties and required list are empty, and the later
parameter registration (which succeeds on the returned wrapper) no longer
changes the toolbox. -/
theorem registration_order_affects_schema (tb : Toolbox) (d : String) (f : PyFunc)
    (pname ptype : String) (pdesc : Option String)
    (hp : f.tool_params = Option.none) (hr : f.tool_required = Option.none) :
    ((Toolbox.parameter pname (Option.some ptype) pdesc true Option.none f).map
        (fun f1 => (Toolbox.function tb d f1).1.tools_schema)
      = Except.ok (tb.tools_schema
          ++ [{ type := "function",
                function := {
                  name := f.name,
                  description := d,
                  strict := true,
                  parameters := {
                    type := "object",
                    properties := [(pname, { type := ptype, description := pdesc, enum := Option.none })],
                    required := [pname] } } }]))
    ∧ ((Toolbox.parameter pname (Option.some ptype) pdesc true Option.none
          (Toolbox.function tb d f).2).map
        (fun _ => (Toolbox.function tb d f).1.tools_schema)
      = Except.ok (tb.tools_schema
          ++ [{ type := "function",
                function := {
                  name := f.name,
                  description := d,
                  strict := true,
                  parameters := { type := "object", properties := [], required := [] } } }])) := by
  constructor
  · simp [Toolbox.parameter, infer_param_type, Toolbox.function, tool_definition_of,
      hp, hr, dictSet, Except.map]
  · simp [Toolbox.parameter, infer_param_type, Toolbox.function, tool_definition_of,
      hp, hr, Except.map]

/-- Claim C5 witness: the bare function object `pFunc`, parameter "p" of type
"string" with description "D", description "doc". -/
theorem registration_order_affects_schema_witness :
    ((Toolbox.parameter "p" (Option.some "string") (Option.some "D") true Option.none pFunc).map
        (fun f1 => (Toolbox.function {} "doc" f1).1.tools_schema)
      = Except.ok (({} : Toolbox).tools_schema
          ++ [{ type := "function",
                function := {
                  name := pFunc.name,
                  description := "doc",
                  strict := true,
                  parameters := {
                    type := "object",
                    properties := [("p", { type := "string", description := Option.some "D", enum := Option.none })],
                    required := ["p"] } } }]))
    ∧ ((Toolbox.parameter "p" (Option.some "string") (Option.some "D") true Option.none
          (Toolbox.function {} "doc" pFunc).2).map
        (fun _ => (Toolbox.function {} "doc" pFunc).1.tools_schema)
      = Except.ok (({} : Toolbox).tools_schema
          ++ [{ type := "function",
                function := {
                  name := pFunc.name,
                  description := "doc",
                  strict := true,
                  parameters := { type := "object", properties := [], required := [] } } }])) :=
  registration_order_affects_schema {} "doc" pFunc "p" "string" (Option.some "D") rfl rfl

/-- Claim C5 counterexample: for the concrete function object `pFunc` the two
registration orders compile different schemas — the function-first order
loses the parameter entirely. -/
theorem registration_order_counterexample :
    (Toolbox.parameter "p" (Option.some "string") (Option.some "D") true Option.none pFunc).map
        (fun f1 => (Toolbox.function {} "order a" f1).1.tools_schema)
      ≠ (Toolbox.parameter "p" (Option.some "string") (Option.some "D") true Option.none
            (Toolbox.function {} "order a" pFunc).2).map
          (fun _ => (Toolbox.function {} "order a" pFunc).1.tools_schema) := by
  have hA : (Toolbox.parameter "p" (Option.some "string") (Option.some "D") true Option.none pFunc).map
      (fun f1 => (Toolbox.function {} "order a" f1).1.tools_schema)
    = Except.ok [{ type := "function",
                   function := {
                     name := "f",
                     description := "order a",
                     strict := true,
                     parameters := {
                       type := "object",
                       properties := [("p", { type := "string", description := Option.some "D", enum := Option.none })],
                       required := ["p"] } } }] := rfl
  have hB : (Toolbox.parameter "p" (Option.some "string") (Option.some "D") true Option.none
        (Toolbox.function {} "order a" pFunc).2).map
      (fun _ => (Toolbox.function {} "order a" pFunc).1.tools_schema)
    = Except.ok [{ type := "function",
                   function := {
                     name := "f",
                     description := "order a",
                     strict := true,
                     parameters := { type := "object", properties := [], required := [] } } }] := rfl
  rw [hA, hB]
  intro h
  simp at h

/-- Claim C9: when `Toolbox.parameter` is given no explicit schema type, a
parameter name absent from the callable's signature, or present without a
type annotation, raises `ValueError` at registration time — the decorator
returns the error instead of a registered function. -/
theorem parameter_inference_fails_fast (name : String) (description : Option String)
    (required : Bool) (enum : Option (List PyVal)) (func : PyFunc) :
    (dictGet func.sig name = Option.none →
      Toolbox.parameter name Option.none description required enum func
        = Except.error ("Parameter \x27" ++ name ++ "\x27 not found in function \x27"
            ++ func.name ++ "\x27 signature"))
    ∧ (dictGet func.sig name = Option.some Option.none →
      Toolbox.parameter name Option.none description required enum func
        = Except.error ("Parameter \x27" ++ name ++ "\x27 in function \x27" ++ func.name
            ++ "\x27 has no type annotation and no \x27type\x27 argument was provided. "
            ++ "Either provide a type annotation or specify the \x27type\x27 argument in the decorator.")) := by
  constructor
  · intro h
    unfold Toolbox.parameter infer_param_type
    simp [h]
  · intro h
    unfold Toolbox.parameter infer_param_type
    simp [h]

/-- Claim C9 witness: asking for parameter "q" on `pFunc` (whose signature
only has "p") and on `qFunc` (whose "q" has no annotation). -/
theorem parameter_inference_fails_fast_witness :
    (Toolbox.parameter "q" Option.none Option.none true Option.none pFunc
        = Except.error ("Parameter \x27" ++ "q" ++ "\x27 not found in function \x27"
            ++ pFunc.name ++ "\x27 signature"))
    ∧ (Toolbox.parameter "q" Option.none Option.none true Option.none qFunc
        = Except.error ("Parameter \x27" ++ "q" ++ "\x27 in function \x27" ++ qFunc.name
            ++ "\x27 has no type annotation and no \x27type\x27 argument was provided. "
            ++ "Either provide a type annotation or specify the \x27type\x27 argument in the decorator.")) :=
  ⟨(parameter_inference_fails_fast "q" Option.none true Option.none pFunc).1 rfl,
   (parameter_inference_fails_fast "q" Option.none true Option.none qFunc).2 rfl⟩

/-- Claim C10: applying the parameter registration twice with the same name
and `required := true` before the function registration leaves a single
property entry under that name (the second write overwrites the first in the
`_tool_params` dict) while the `required` array lists the name twice. -/
theorem duplicate_parameter_required_twice (tb : Toolbox) (fdesc pname t1 t2 : String)
    (d1 d2 : Option String) (func : PyFunc)
    (hp : func.tool_params = Option.none) (hr : func.tool_required = Option.none) :
    ((Toolbox.parameter pname (Option.some t1) d1 true Option.none func).bind
        (fun f1 => (Toolbox.parameter pname (Option.some t2) d2 true Option.none f1).map
          (fun f2 => (Toolbox.function tb fdesc f2).1.tools_schema)))
      = Except.ok (tb.tools_schema
          ++ [{ type := "function",
                function := {
                  name := func.name,
                  description := fdesc,
                  strict := true,
                  parameters := {
                    type := "object",
                    properties := [(pname, { type := t2, description := d2, enum := Option.none })],
                    required := [pname, pname] } } }]) := by
  simp [Toolbox.parameter, infer_param_type, Toolbox.function, tool_definition_of,
    hp, hr, dictSet, Except.bind, Except.map]

/-- Claim C10 witness: parameter "p" registered twice on `fFunc` with types
"string" then "integer". -/
theorem duplicate_parameter_required_twice_witness :
    ((Toolbox.parameter "p" (Option.some "string") Option.none true Option.none fFunc).bind
        (fun f1 => (Toolbox.parameter "p" (Option.some "integer") Option.none true Option.none f1).map
          (fun f2 => (Toolbox.function {} "dup doc" f2).1.tools_schema)))
      = Except.ok (({} : Toolbox).tools_schema
          ++ [{ type := "function",
                function := {
                  name := fFunc.name,
                  description := "dup doc",
                  strict := true,
                  parameters := {
                    type := "object",
                    properties := [("p", { type := "integer", description := Option.none, enum := Option.none })],
                    required := ["p", "p"] } } }]) :=
  duplicate_parameter_required_twice {} "dup doc" "p" "string" "integer"
    Option.none Option.none fFunc rfl rfl

/-- Claim C6: `build_tools_schema` emits one tool definition for exactly the
function descriptors whose name and description are both non-empty, in input
order, and skips every descriptor where either field is empty. -/
theorem build_tools_schema_emits_iff_complete (functions : List Schema.Function) :
    Schema.build_tools_schema functions
      = (functions.filter (fun fd => decide (¬(fd.name = "" ∨ fd.description = "")))).map
          Schema.tool_definition_for := by
  have key : ∀ (fns : List Schema.Function) (init : List Schema.ToolDefinition),
      fns.foldl Schema.buildStep init
        = init ++ (fns.filter (fun fd => decide (¬(fd.name = "" ∨ fd.description = "")))).map
            Schema.tool_definition_for := by
    intro fns
    induction fns with
    | nil => intro init; simp
    | cons fd fns ih =>
      intro init
      rw [List.foldl_cons, ih (Schema.buildStep init fd), List.filter_cons]
      by_cases h : fd.name = "" ∨ fd.description = ""
      · simp [Schema.buildStep, h]
      · simp [Schema.buildStep, h]
  unfold Schema.build_tools_schema
  rw [key functions []]
  simp

/-- Claim C7: the compiled schema for a fully-registered function with one
required string parameter described "D" is exactly
`{"type": "function", "function": {"name", "description", "strict": true,
"parameters": {"type": "object", "properties": {"p": {"type": "string",
"description": "D"}}, "required": ["p"]}}}`, and a function registered with
no parameters compiles with empty properties and an empty required array —
both along the decorator pipeline of `toolbox.py` and along
`build_tools_schema` of `schema.py`. -/
theorem compiled_schema_exact_shape :
    ((Toolbox.parameter "p" (Option.some "string") (Option.some "D") true Option.none pFunc).map
        (fun f1 => (Toolbox.function {} "helper doc" f1).1.tools_schema)
      = Except.ok [{ type := "function",
                     function := {
                       name := "f",
                       description := "helper doc",
                       strict := true,
                       parameters := {
                         type := "object",
                         properties := [("p", { type := "string", description := Option.some "D", enum := Option.none })],
                         required := ["p"] } } }])
    ∧ (Schema.build_tools_schema
        [{ name := "f", description := "helper doc",
           parameters := [{ name := "p", type := "string", description := Option.some "D" }] }]
      = [{ type := "function",
           function := {
             name := "f",
             description := "helper doc",
             strict := true,
             parameters := {
               type := "object",
               properties := [("p", { type := "string", description := Option.some "D" })],
               required := ["p"] } } }])
    ∧ ((Toolbox.function {} "helper doc" fFunc).1.tools_schema
      = [{ type := "function",
           function := {
             name := "f",
             description := "helper doc",
             strict := true,
             parameters := { type := "object", properties := [], required := [] } } }])
    ∧ (Schema.build_tools_schema [{ name := "f", description := "helper doc" }]
      = [{ type := "function",
           function := {
             name := "f",
             description := "helper doc",
             strict := true,
             parameters := { type := "object", properties := [], required := [] } } }]) :=
  ⟨rfl, rfl, rfl, rfl⟩

/-- The serializer loop, from any accumulator: it echoes every result's tool
call onto the assistant message and appends exactly one tool-role message per
result, in order. -/
theorem serialize_foldl_spec (results : List Messages.Result) :
    ∀ (am : Messages.AssistantMessage) (ts : List Messages.ToolMessage),
      results.foldl Messages.serializeStep (am, ts)
        = ({ role := am.role,
             tool_calls := am.tool_calls ++ results.map Messages.Result.tool_call },
           ts ++ results.map (fun result =>
             { tool_call_id := (Messages.Result.tool_call result).id,
               role := "tool",
               name := Messages.Result.name result,
               content :=
                 match result with
                 | Messages.Result.success r => pyStr r.output
                 | Messages.Result.error r => "Error executing " ++ r.name ++ ": " ++ r.error })) := by
  induction results with
  | nil => intro am ts; simp
  | cons r rs ih =>
    intro am ts
    rw [List.foldl_cons]
    cases r with
    | success s =>
      simp [Messages.serializeStep, ih, Messages.Result.tool_call, Messages.Result.name]
    | error e =>
      simp [Messages.serializeStep, ih, Messages.Result.tool_call, Messages.Result.name]

/-- Claim C8: `serialize_results` is total and order-preserving: it produces
exactly one tool-role message per outcome, in the same order, carrying the
originating call's id and the resolved function name, whose content is the
string representation of the return value for a success and the template
"Error executing <name>: <error message>" for a failure; the assistant
message echoes every originating tool call in order. -/
theorem serialize_results_total_order_preserving (results : List Messages.Result) :
    (Messages.serialize_results results).2
      = results.map (fun result =>
          { tool_call_id := (Messages.Result.tool_call result).id,
            role := "tool",
            name := Messages.Result.name result,
            content :=
              match result with
              | Messages.Result.success r => pyStr r.output
              | Messages.Result.error r => "Error executing " ++ r.name ++ ": " ++ r.error })
    ∧ (Messages.serialize_results results).1
      = { role := "assistant", tool_calls := results.map Messages.Result.tool_call } := by
  unfold Messages.serialize_results
  rw [serialize_foldl_spec]
  constructor
  · simp
  · simp
